import Mathlib

/-!
Shallow embedding of the training pipeline in src/tools/ml/train_ranker.py
(pairwise preference-ranking model trainer).  Python floats are modelled by
rationals; where IEEE special values (NaN, infinity) matter for control flow
they are modelled by an explicit extended value type.  Fallible code (Python
exceptions such as ZeroDivisionError, and sys.exit) is modelled with Option.
Line numbers in doc comments refer to src/tools/ml/train_ranker.py.
-/

/-- Constant from line 37. -/
def DEFAULT_EMBEDDING_DIM : ℕ := 1536

/-- Constant from line 38. -/
def DEFAULT_METRICS_DIM : ℕ := 6

/-- Constant from line 39. -/
def DEFAULT_HIDDEN_DIM : ℕ := 128

/-- Constant from line 41. -/
def DEFAULT_BATCH_SIZE : ℕ := 32

/-- Constant from line 42. -/
def DEFAULT_EPOCHS : ℕ := 50

/-- Constant from line 43 (0.5 as a rational). -/
def DEFAULT_MARGIN : ℚ := 1 / 2

/-- Constant from line 44. -/
def MIN_PAIRS_REQUIRED : ℕ := 10

/-- Default of the val-split command line option (line 392): 0.2. -/
def DEFAULT_VAL_SPLIT : ℚ := 1 / 5

/-- One nested item object of the nested input variant: an optional embedding
and an optional metrics mapping (spec section 6; generated by
test_ranker.py, create_sample_dataset). -/
structure Item where
  embedding : Option (List ℚ)
  metrics : List (String × ℚ)
  deriving DecidableEq

/-- One parsed JSONL input row.  It may carry the flattened fields the code
reads (a_metrics, b_metrics, a_embedding, b_embedding, label) or the nested
item objects (item_a, item_b); a missing key is None.  PairwiseRankingDataset
reads only the flattened keys via row.get (lines 64-68). -/
structure RawRow where
  a_metrics : Option (List ℚ)
  b_metrics : Option (List ℚ)
  a_embedding : Option (List ℚ)
  b_embedding : Option (List ℚ)
  item_a : Option Item
  item_b : Option Item
  label : Option ℤ
  deriving DecidableEq

/-- One stored dataset entry (the dict appended at lines 87-95). -/
structure Sample where
  a_metrics : List ℚ
  b_metrics : List ℚ
  a_embedding : List ℚ
  b_embedding : List ℚ
  label : ℤ
  deriving DecidableEq

/-- Lines 76-85: np.array(e) if e else np.zeros(embedding_dim).  An absent
key gives the default [] which is falsy, as is an explicit empty list, so
both are replaced by a zero vector of length embedding_dim; a non-empty
embedding is used as-is (no length check). -/
def fillEmbedding (embedding_dim : ℕ) (e : List ℚ) : List ℚ :=
  if e = [] then List.replicate embedding_dim 0 else e

/-- Lines 62-95: the per-row body of PairwiseRankingDataset.init.  Flattened
keys are read with row.get defaults (lines 64-68); the row is skipped when
either metrics length differs from metrics_dim (lines 70-74); otherwise the
sample dict is appended (lines 87-95).  None models a skipped row. -/
def processRow (metrics_dim embedding_dim : ℕ) (r : RawRow) : Option Sample :=
  let am := r.a_metrics.getD []
  let bm := r.b_metrics.getD []
  if am.length ≠ metrics_dim ∨ bm.length ≠ metrics_dim then none
  else
    some
      { a_metrics := am
        b_metrics := bm
        a_embedding := fillEmbedding embedding_dim (r.a_embedding.getD [])
        b_embedding := fillEmbedding embedding_dim (r.b_embedding.getD [])
        label := r.label.getD 0 }

/-- The acceptance condition of processRow, as a boolean: both metrics
vectors (after the row.get defaults) have length metrics_dim. -/
def metricsOk (metrics_dim : ℕ) (r : RawRow) : Bool :=
  ((r.a_metrics.getD []).length == metrics_dim) &&
    ((r.b_metrics.getD []).length == metrics_dim)

/-- Lines 62-99: PairwiseRankingDataset.init accumulates the accepted
samples in order (self.data). -/
def buildDataset (metrics_dim embedding_dim : ℕ) (rows : List RawRow) : List Sample :=
  rows.filterMap (processRow metrics_dim embedding_dim)

/-- Line 102-109: feature_names is a fixed list of six names once any sample
was accepted, else stays empty. -/
def FEATURE_NAMES : List String :=
  ["clarity", "impact", "relevance", "readability", "keyword_density", "completeness"]

/-- Lines 101-109. -/
def datasetFeatureNames (ds : List Sample) : List String :=
  if ds = [] then [] else FEATURE_NAMES

/-- Lines 412-428 of main: after JSONL parsing the guard
length(data) < MIN_PAIRS_REQUIRED triggers sys.exit(1) (modelled by none);
it is applied to the raw row count, before dataset construction.  The
dataset is then built as PairwiseRankingDataset(data, args.metrics_dim)
(line 428): the embedding_dim argument is omitted, so the dataset always
uses DEFAULT_EMBEDDING_DIM whatever the embedding-dim option is. -/
def mainLoadPhase (rows : List RawRow) (args_metrics_dim : ℕ) : Option (List Sample) :=
  if rows.length < MIN_PAIRS_REQUIRED then none
  else some (buildDataset args_metrics_dim DEFAULT_EMBEDDING_DIM rows)

/-- Lines 134 and 452-456: the model input dimension is
args.embedding_dim + args.metrics_dim. -/
def mainModelTotalDim (args_embedding_dim args_metrics_dim : ℕ) : ℕ :=
  args_embedding_dim + args_metrics_dim

/-- A fully-connected layer (torch nn.Linear): weight matrix and bias. -/
structure LinearLayer (inDim outDim : ℕ) where
  weight : Fin outDim → Fin inDim → ℚ
  bias : Fin outDim → ℚ

/-- y = W x + b. -/
def LinearLayer.apply (l : LinearLayer inDim outDim) (x : Fin inDim → ℚ) :
    Fin outDim → ℚ :=
  fun i => (∑ j, l.weight i j * x j) + l.bias i

/-- Componentwise ReLU. -/
def reluVec (v : Fin n → ℚ) : Fin n → ℚ :=
  fun i => max (v i) 0

/-- Lines 125-157: PairwiseRankerMLP.  The shared feature encoder is
Linear(total_dim, hidden) - ReLU - Dropout - Linear(hidden, hidden / 2) -
ReLU - Dropout, followed by the score head Linear(hidden / 2, 1).  In
inference (eval) mode, used at export and when the claims speak about
scoring, Dropout is the identity, so it does not appear in the forward
function below.  Both sides of a pair are scored by this one parameter
set. -/
structure PairwiseRankerMLP (embedding_dim metrics_dim hidden_dim : ℕ) where
  enc1 : LinearLayer (embedding_dim + metrics_dim) hidden_dim
  enc2 : LinearLayer hidden_dim (hidden_dim / 2)
  score_head : LinearLayer (hidden_dim / 2) 1

/-- Lines 137-147 and 172-177: encode then score one feature vector. -/
def PairwiseRankerMLP.score (m : PairwiseRankerMLP e d h) (x : Fin (e + d) → ℚ) : ℚ :=
  m.score_head.apply (reluVec (m.enc2.apply (reluVec (m.enc1.apply x)))) 0

/-- Lines 159-179: forward concatenates embedding and metrics for each side
(embedding first), scores both sides with the shared encoder and score head,
and returns (a_score, b_score, a_score - b_score). -/
def PairwiseRankerMLP.forward (m : PairwiseRankerMLP e d h)
    (aEmb : Fin e → ℚ) (aMet : Fin d → ℚ) (bEmb : Fin e → ℚ) (bMet : Fin d → ℚ) :
    ℚ × ℚ × ℚ :=
  let aScore := m.score (Fin.append aEmb aMet)
  let bScore := m.score (Fin.append bEmb bMet)
  (aScore, bScore, aScore - bScore)

/-- Lines 182-190: mean over the batch of relu(margin - label * (a - b)).
The empty-batch mean (never produced by a DataLoader batch) is 0 here. -/
def margin_ranking_loss (a_scores b_scores labels : List ℚ) (margin : ℚ) : ℚ :=
  let per := ((a_scores.zip b_scores).zip labels).map
    (fun p => max (margin - p.2 * (p.1.1 - p.1.2)) 0)
  per.sum / per.length

/-- Lines 193-199: predictions = (a_scores > b_scores); a sample counts as
correct when that boolean equals (label > 0); the result is the mean, i.e.
the correct count over the batch size. -/
def compute_accuracy (a_scores b_scores labels : List ℚ) : ℚ :=
  let pairs := (a_scores.zip b_scores).zip labels
  ((pairs.filter fun p => (decide (p.1.1 > p.1.2)) == decide (p.2 > 0)).length : ℚ) /
    pairs.length

/-- The sign function used by the wording of the spec. -/
def qsign (q : ℚ) : ℤ :=
  if 0 < q then 1 else if q < 0 then -1 else 0

/-- Modelled from the spec (section 4.5), first offered tie rule: pairwise
accuracy counts samples with sign(a - b) = sign(label), and samples with
label 0 are excluded from the denominator.  Stated only for comparison with
compute_accuracy. -/
def specAccuracyExcludeZero (a_scores b_scores labels : List ℚ) : ℚ :=
  let pairs := ((a_scores.zip b_scores).zip labels).filter fun p => decide (p.2 ≠ 0)
  ((pairs.filter fun p => decide (qsign (p.1.1 - p.1.2) = qsign p.2)).length : ℚ) /
    pairs.length

/-- Modelled from the spec (section 4.5), second offered tie rule: samples
with label 0 stay in the denominator and count as incorrect.  Stated only
for comparison with compute_accuracy. -/
def specAccuracyZeroIncorrect (a_scores b_scores labels : List ℚ) : ℚ :=
  let pairs := (a_scores.zip b_scores).zip labels
  ((pairs.filter fun p =>
      decide (p.2 ≠ 0 ∧ qsign (p.1.1 - p.1.2) = qsign p.2)).length : ℚ) /
    pairs.length

/-- One validation (or training) sample as the DataLoader delivers it to
evaluate: the four feature tensors and the float label (lines 114-122). -/
structure EvalRow (e d : ℕ) where
  a_embedding : Fin e → ℚ
  a_metrics : Fin d → ℚ
  b_embedding : Fin e → ℚ
  b_metrics : Fin d → ℚ
  label : ℚ

/-- The a-side scores of a batch under the model (lines 256-258). -/
def batchScoresA (m : PairwiseRankerMLP e d h) (batch : List (EvalRow e d)) : List ℚ :=
  batch.map fun r => (m.forward r.a_embedding r.a_metrics r.b_embedding r.b_metrics).1

/-- The b-side scores of a batch under the model (lines 256-258). -/
def batchScoresB (m : PairwiseRankerMLP e d h) (batch : List (EvalRow e d)) : List ℚ :=
  batch.map fun r => (m.forward r.a_embedding r.a_metrics r.b_embedding r.b_metrics).2.1

/-- Lines 239-275: evaluate accumulates margin_ranking_loss (called with the
default margin, line 260) and compute_accuracy over the batches, then at
line 275 divides both totals by the number of batches.  That division has no
emptiness guard: with zero batches Python raises ZeroDivisionError, modelled
by none. -/
def evaluate (m : PairwiseRankerMLP e d h) (batches : List (List (EvalRow e d))) :
    Option (ℚ × ℚ) :=
  if batches.length = 0 then none
  else
    some
      ((batches.map fun b =>
          margin_ranking_loss (batchScoresA m b) (batchScoresB m b)
            (b.map EvalRow.label) DEFAULT_MARGIN).sum / batches.length,
       (batches.map fun b =>
          compute_accuracy (batchScoresA m b) (batchScoresB m b)
            (b.map EvalRow.label)).sum / batches.length)

/-- Line 433: val_size = int(len(dataset) * args.val_split); Python int()
truncates toward zero, which for the non-negative product is the floor. -/
def val_size (n : ℕ) (val_split : ℚ) : ℕ :=
  (⌊(n : ℚ) * val_split⌋).toNat

/-- Line 434: train_size = len(dataset) - val_size. -/
def train_size (n : ℕ) (val_split : ℚ) : ℕ :=
  n - val_size n val_split

/-- DataLoader batching (lines 441-442): consecutive chunks of at most
batch_size samples; the last chunk may be shorter. -/
def makeBatches (batch_size : ℕ) : List α → List (List α)
  | [] => []
  | x :: xs =>
      (x :: xs.take (batch_size - 1)) :: makeBatches batch_size (xs.drop (batch_size - 1))
termination_by l => l.length
decreasing_by
  simp only [List.length_drop, List.length_cons]
  omega

/-- Lines 472-477: each epoch trains (mutating the parameters, abstracted
here by the indexed family of post-epoch models) and then calls evaluate on
the validation batches unconditionally.  A ZeroDivisionError in any epoch
(none from evaluate) aborts the loop, so the whole loop result is none. -/
def perEpochValMetrics (epochs : ℕ) (models : ℕ → PairwiseRankerMLP e d h)
    (valBatches : List (List (EvalRow e d))) : Option (List (ℚ × ℚ)) :=
  (List.range epochs).mapM fun i => evaluate (models i) valBatches

/-- An abstract Python float: a finite rational or one of the IEEE special
values NaN, +inf, -inf.  Used where the special values matter to the claims
(loss accumulation, the float(inf) default of line 496). -/
inductive FVal where
  | num : ℚ → FVal
  | nan : FVal
  | inf : FVal
  | ninf : FVal
  deriving DecidableEq

/-- IEEE addition on abstract floats: NaN absorbs, inf + (-inf) is NaN. -/
def FVal.add : FVal → FVal → FVal
  | nan, _ => nan
  | _, nan => nan
  | inf, ninf => nan
  | ninf, inf => nan
  | inf, _ => inf
  | _, inf => inf
  | ninf, _ => ninf
  | _, ninf => ninf
  | num a, num b => num (a + b)

/-- Division of an abstract float by a Python int: dividing by 0 raises
ZeroDivisionError (none); NaN and infinities propagate. -/
def FVal.divNat : FVal → ℕ → Option FVal
  | _, 0 => none
  | num a, n => some (num (a / n))
  | nan, _ + 1 => some nan
  | inf, _ + 1 => some inf
  | ninf, _ + 1 => some ninf

/-- Lines 495-502: before the final evaluation, final_val_loss defaults to
float(inf) and final_val_acc to 0.0, and evaluate is called only when the
validation loader is non-empty.  This is the only guarded evaluate call. -/
def finalValEval (m : PairwiseRankerMLP e d h) (valBatches : List (List (EvalRow e d))) :
    Option (FVal × ℚ) :=
  if 0 < valBatches.length then
    (evaluate m valBatches).map fun p => (FVal.num p.1, p.2)
  else some (FVal.inf, 0)

/-- The (loss, accuracy) totals step shared by train_epoch (lines 210-236)
and evaluate (lines 244-275): per batch the loss (an abstract float, since a
diverging training run can make it NaN or infinite) is accumulated with +=
and the accuracy with +=, and the totals are divided by the number of
batches at the end.  The loss values per batch are taken as given because
they come from the float model computation; crucially, no branch of either
function inspects the loss value, so a NaN or infinite loss flows through
unchecked. -/
def epochTotals (batchResults : List (FVal × ℚ)) : Option (FVal × ℚ) :=
  match (batchResults.foldl (fun t p => t.add p.1) (FVal.num 0)).divNat batchResults.length with
  | none => none
  | some l => some (l, (batchResults.map Prod.snd).sum / batchResults.length)

/-- The per-batch (loss, accuracy) results of one epoch: the training
batches seen by train_epoch and the validation batches seen by evaluate. -/
structure EpochBatchResults where
  trainBatches : List (FVal × ℚ)
  valBatches : List (FVal × ℚ)
  deriving DecidableEq

/-- One iteration of the loop at lines 472-477: train_epoch then evaluate,
each reducing its batch results with epochTotals. -/
def epochPass (ed : EpochBatchResults) : Option ((FVal × ℚ) × (FVal × ℚ)) :=
  match epochTotals ed.trainBatches, epochTotals ed.valBatches with
  | some t, some v => some (t, v)
  | _, _ => none

/-- The three files main writes after training (lines 515-567). -/
def OUTPUT_FILES : List String :=
  ["ranker.onnx", "ranker_metadata.json", "active_model.json"]

/-- Lines 472-477 and 507-567: the epoch loop runs every epoch, then main
unconditionally exports the ONNX model and writes the metadata and active
model documents.  Nothing between the loop and the writes inspects the loss
values: there is no NaN/Inf check, so the run aborts only when an epoch
itself raises (empty loader division), never because a loss is NaN or
infinite. -/
def runTrainingAndExport (epochsData : List EpochBatchResults) :
    Option (List ((FVal × ℚ) × (FVal × ℚ)) × List String) :=
  (epochsData.mapM epochPass).map fun ms => (ms, OUTPUT_FILES)

/-- The mutable state of the checkpoint bookkeeping at lines 469-481: the
model parameters (abstracted to a type M), best_val_acc and best_epoch.
The structure holds everything the loop keeps: in particular there is no
field for a snapshot of the parameters, because the code takes none. -/
structure LoopState (M : Type) where
  model : M
  best_val_acc : ℚ
  best_epoch : ℕ

/-- One iteration of the loop at lines 472-481: train_epoch advances the
parameters (abstracted as step), evaluate yields the validation accuracy of
the new parameters (abstracted as valAcc), and if it strictly exceeds
best_val_acc the two scalars best_val_acc and best_epoch are updated -
nothing else is recorded. -/
def epochUpdate (valAcc : M → ℚ) (step : M → M) (s : LoopState M) (epoch : ℕ) :
    LoopState M :=
  let m := step s.model
  let val_acc := valAcc m
  if s.best_val_acc < val_acc then ⟨m, val_acc, epoch + 1⟩
  else ⟨m, s.best_val_acc, s.best_epoch⟩

/-- Lines 469-481: best_val_acc starts at 0.0 and best_epoch at 0, and the
loop body runs for epoch = 0 .. epochs-1.  The model field of the result is
what line 519 passes to export_onnx. -/
def trainingLoop (epochs : ℕ) (valAcc : M → ℚ) (step : M → M) (init : M) :
    LoopState M :=
  (List.range epochs).foldl (epochUpdate valAcc step) ⟨init, 0, 0⟩

/-- A concrete all-zero model instance, used to instantiate theorems. -/
def zeroMLP : PairwiseRankerMLP 1 1 2 :=
  ⟨⟨fun _ _ => 0, fun _ => 0⟩, ⟨fun _ _ => 0, fun _ => 0⟩, ⟨fun _ _ => 0, fun _ => 0⟩⟩

/-- A flattened row with six metrics per side and short explicit embeddings:
accepted by the dataset with everything stored as given. -/
def validRow : RawRow :=
  { a_metrics := some [1, 0, 0, 0, 0, 0]
    b_metrics := some [0, 1, 0, 0, 0, 0]
    a_embedding := some [1]
    b_embedding := some [2]
    item_a := none
    item_b := none
    label := some 1 }

/-- A flattened row whose a-side metrics vector has length 1 instead of 6:
rejected by the metrics-length check. -/
def invalidRow : RawRow :=
  { a_metrics := some [1]
    b_metrics := some [0, 1, 0, 0, 0, 0]
    a_embedding := none
    b_embedding := none
    item_a := none
    item_b := none
    label := some 1 }

/-- A nested-variant row in the shape test_ranker.py generates: item
objects with an embedding and a metrics mapping carrying six named values,
and a top level label; none of the flattened keys is present. -/
def nestedRow : RawRow :=
  { a_metrics := none
    b_metrics := none
    a_embedding := none
    b_embedding := none
    item_a := some
      { embedding := some [1, 2]
        metrics := [("clarity", 1), ("impact", 0), ("relevance", 0),
          ("readability", 0), ("keyword_density", 0), ("completeness", 0)] }
    item_b := some
      { embedding := some [3, 4]
        metrics := [("clarity", 0), ("impact", 1), ("relevance", 0),
          ("readability", 0), ("keyword_density", 0), ("completeness", 0)] }
    label := some 1 }

/-- The flattened equivalent of nestedRow: the same six metric values per
side in feature order, the same embeddings and label, as flattened keys. -/
def flatEquivRow : RawRow :=
  { a_metrics := some [1, 0, 0, 0, 0, 0]
    b_metrics := some [0, 1, 0, 0, 0, 0]
    a_embedding := some [1, 2]
    b_embedding := some [3, 4]
    item_a := none
    item_b := none
    label := some 1 }

/-- A row whose metrics are well-formed but whose present a-side embedding
has length 2 and b-side embedding length 1: no embedding dimension matches
DEFAULT_EMBEDDING_DIM. -/
def rowBadEmb : RawRow :=
  { a_metrics := some [1, 0, 0, 0, 0, 0]
    b_metrics := some [0, 1, 0, 0, 0, 0]
    a_embedding := some [1, 2]
    b_embedding := some [3]
    item_a := none
    item_b := none
    label := some (-1) }

/-- A well-formed row except that its label is 7, outside {-1, 0, 1}. -/
def rowLabel7 : RawRow :=
  { a_metrics := some [1, 0, 0, 0, 0, 0]
    b_metrics := some [0, 1, 0, 0, 0, 0]
    a_embedding := some [1]
    b_embedding := some [2]
    item_a := none
    item_b := none
    label := some 7 }

/-- A row with six metrics per side and both embeddings absent: accepted,
with zero vectors substituted for the embeddings. -/
def rowNoEmb : RawRow :=
  { a_metrics := some [1, 0, 0, 0, 0, 0]
    b_metrics := some [0, 1, 0, 0, 0, 0]
    a_embedding := none
    b_embedding := none
    item_a := none
    item_b := none
    label := some 1 }

/-- The sample rowNoEmb is stored as: zero vectors of the default embedding
dimension on both sides. -/
def sampleNoEmb : Sample :=
  { a_metrics := [1, 0, 0, 0, 0, 0]
    b_metrics := [0, 1, 0, 0, 0, 0]
    a_embedding := List.replicate DEFAULT_EMBEDDING_DIM 0
    b_embedding := List.replicate DEFAULT_EMBEDDING_DIM 0
    label := 1 }

/-- processRow accepts exactly the rows metricsOk accepts, and then stores
the row fields after the defaults and the zero-fill. -/
theorem processRow_eq (md ed : ℕ) (r : RawRow) :
    processRow md ed r =
      if metricsOk md r then
        some
          { a_metrics := r.a_metrics.getD []
            b_metrics := r.b_metrics.getD []
            a_embedding := fillEmbedding ed (r.a_embedding.getD [])
            b_embedding := fillEmbedding ed (r.b_embedding.getD [])
            label := r.label.getD 0 }
      else none := by
  unfold processRow metricsOk
  by_cases h1 : (r.a_metrics.getD []).length = md <;>
    by_cases h2 : (r.b_metrics.getD []).length = md <;>
      simp [h1, h2]

/-- C1.  The MIN_PAIRS_REQUIRED guard of main (line 420) is evaluated on
the raw row count before any filtering: an input of 10 raw rows of which
only 5 survive filtering passes the guard, so the pipeline proceeds to
training with a valid-sample count below the threshold (and, completing
normally, exits 0) instead of aborting before training with a non-zero
exit. -/
theorem min_pairs_guard_passes_with_few_valid_samples :
    (mainLoadPhase (List.replicate 5 validRow ++ List.replicate 5 invalidRow) 6).map
        List.length = some 5 ∧
      5 < MIN_PAIRS_REQUIRED := by
  exact ⟨rfl, by norm_num [MIN_PAIRS_REQUIRED]⟩

/-- C3.  A nested-variant row (the shape test_ranker.py generates and the
spec requires to be accepted), with six named metrics per side, is rejected
by PairwiseRankingDataset: the code reads only the flattened keys, so
a_metrics defaults to [] and fails the metrics-length check, while the
equivalent flattened row is accepted. -/
theorem nested_row_rejected_flat_row_accepted :
    buildDataset 6 DEFAULT_EMBEDDING_DIM [nestedRow] = [] ∧
      (buildDataset 6 DEFAULT_EMBEDDING_DIM [flatEquivRow]).length = 1 :=
  ⟨rfl, rfl⟩

/-- C4 counterexample.  A row whose present embeddings have lengths 2 and 1,
both different from the configured embedding dimension, is accepted, and the
embeddings are stored as-is: embedding lengths are never checked, refuting
the claim that a present embedding of mismatched length is rejected. -/
theorem wrong_length_embedding_accepted :
    (buildDataset 6 DEFAULT_EMBEDDING_DIM [rowBadEmb]).map (fun s => s.a_embedding) =
        [[1, 2]] ∧
      (buildDataset 6 DEFAULT_EMBEDDING_DIM [rowBadEmb]).map (fun s => s.b_embedding) =
        [[3]] ∧
      (buildDataset 6 DEFAULT_EMBEDDING_DIM [rowBadEmb]).length = 1 ∧
      ([1, 2] : List ℚ).length ≠ DEFAULT_EMBEDDING_DIM := by
  refine ⟨rfl, rfl, rfl, ?_⟩
  norm_num [DEFAULT_EMBEDDING_DIM]

/-- C4 amended.  Dataset construction rejects a row exactly when one of the
two metrics vectors does not have length metrics_dim; the dataset size
equals the number of rows passing that metrics check (embedding lengths
play no role). -/
theorem dataset_size_eq_metrics_ok_count :
    ∀ (md ed : ℕ) (rows : List RawRow),
      (buildDataset md ed rows).length = (rows.filter (metricsOk md)).length := by
  intro md ed rows
  induction rows with
  | nil => rfl
  | cons r rs ih =>
    simp only [buildDataset] at ih ⊢
    rw [List.filterMap_cons, List.filter_cons, processRow_eq]
    cases hb : metricsOk md r <;> simp [hb, ih]

/-- C8 counterexample.  A row with label 7 and well-formed metrics is
stored with label 7, which is outside {-1, 0, 1}: labels are not
validated. -/
theorem label_outside_range_stored :
    (buildDataset 6 DEFAULT_EMBEDDING_DIM [rowLabel7]).map Sample.label = [7] ∧
      ¬((7 : ℤ) = -1 ∨ (7 : ℤ) = 0 ∨ (7 : ℤ) = 1) :=
  ⟨rfl, by decide⟩

/-- C8 amended.  The labels stored in a built dataset are exactly the
labels of the rows passing the metrics check, each read with row.get
default 0 and stored without any validation. -/
theorem dataset_labels_eq_row_labels :
    ∀ (md ed : ℕ) (rows : List RawRow),
      (buildDataset md ed rows).map Sample.label =
        (rows.filter (metricsOk md)).map (fun r => r.label.getD 0) := by
  intro md ed rows
  induction rows with
  | nil => rfl
  | cons r rs ih =>
    simp only [buildDataset] at ih ⊢
    rw [List.filterMap_cons, List.filter_cons, processRow_eq]
    cases hb : metricsOk md r <;> simp [hb, ih]

/-- The dataset built from n copies of rowNoEmb is n copies of
sampleNoEmb. -/
theorem buildDataset_replicate_rowNoEmb :
    ∀ n, buildDataset 6 DEFAULT_EMBEDDING_DIM (List.replicate n rowNoEmb) =
      List.replicate n sampleNoEmb := by
  intro n
  induction n with
  | zero => rfl
  | succ k ih =>
    simp only [buildDataset] at ih ⊢
    rw [List.replicate_succ, List.filterMap_cons,
      show processRow 6 DEFAULT_EMBEDDING_DIM rowNoEmb = some sampleNoEmb from rfl,
      List.replicate_succ, ih]

/-- C5.  main builds the dataset as PairwiseRankingDataset(data,
args.metrics_dim), omitting the embedding-dim option, so rows with absent
embeddings get zero vectors of length DEFAULT_EMBEDDING_DIM = 1536
regardless of the configured option.  For a run configured with
embedding-dim 4 the model input dimension is 4 + 6 = 10, which the stored
feature dimension 1536 + 6 does not match. -/
theorem dataset_embedding_dim_ignores_config :
    (mainLoadPhase (List.replicate 10 rowNoEmb) 6).map
        (fun ds => ds.map fun s => s.a_embedding.length) =
      some (List.replicate 10 DEFAULT_EMBEDDING_DIM) ∧
    DEFAULT_EMBEDDING_DIM ≠ 4 ∧
    mainModelTotalDim 4 6 = 10 ∧
    DEFAULT_EMBEDDING_DIM + DEFAULT_METRICS_DIM ≠ mainModelTotalDim 4 6 := by
  refine ⟨?_, by norm_num [DEFAULT_EMBEDDING_DIM], rfl,
    by norm_num [DEFAULT_EMBEDDING_DIM, DEFAULT_METRICS_DIM, mainModelTotalDim]⟩
  rw [show mainLoadPhase (List.replicate 10 rowNoEmb) 6 =
      some (buildDataset 6 DEFAULT_EMBEDDING_DIM (List.replicate 10 rowNoEmb)) from rfl,
    buildDataset_replicate_rowNoEmb]
  simp [sampleNoEmb, List.map_replicate]

/-- C2 counterexample.  A two-epoch run in which the first epoch has the
better validation accuracy: the loop records best_epoch = 1, but the model
state handed to the exporter is the state after the final epoch (2), not
the state after the best epoch (1): no snapshot is taken. -/
theorem export_not_best_epoch_counterexample :
    (trainingLoop 2 (fun m => if m = 1 then 1 else 0) Nat.succ 0).model = 2 ∧
      (trainingLoop 2 (fun m => if m = 1 then 1 else 0) Nat.succ 0).best_epoch = 1 ∧
      Nat.succ^[1] 0 = 1 ∧ (2 : ℕ) ≠ 1 := by
  norm_num [trainingLoop, epochUpdate, List.range_succ]

/-- The loop body always replaces the model field with the stepped model,
whichever branch of the best-accuracy comparison is taken. -/
theorem epochUpdate_model (valAcc : M → ℚ) (step : M → M) (s : LoopState M) (i : ℕ) :
    (epochUpdate valAcc step s i).model = step s.model := by
  by_cases hc : s.best_val_acc < valAcc (step s.model) <;> simp [epochUpdate, hc]

/-- C2 amended.  The checkpoint bookkeeping records only the scalars
best_val_acc and best_epoch; no parameter snapshot exists, and the model
state passed to the exporter is always the parameters after the final
epoch, i.e. the epoch step iterated over every epoch from the initial
parameters. -/
theorem trainingLoop_model_eq_iterate :
    ∀ (M : Type) (valAcc : M → ℚ) (step : M → M) (epochs : ℕ) (init : M),
      (trainingLoop epochs valAcc step init).model = step^[epochs] init := by
  intro M valAcc step epochs init
  induction epochs with
  | zero => rfl
  | succ k ih =>
    have hm : (List.foldl (epochUpdate valAcc step) ⟨init, 0, 0⟩ (List.range k)).model =
        step^[k] init := ih
    rw [trainingLoop, List.range_succ, List.foldl_append, List.foldl_cons, List.foldl_nil,
      Function.iterate_succ_apply', epochUpdate_model]
    rw [show (List.foldl (epochUpdate valAcc step) ⟨init, 0, 0⟩ (List.range k)) =
      trainingLoop k valAcc step init from rfl, ih]

/-- Dividing an abstract float by a non-zero int always succeeds. -/
theorem divNat_isSome (v : FVal) (n : ℕ) (hn : n ≠ 0) : ∃ w, FVal.divNat v n = some w := by
  cases n with
  | zero => exact absurd rfl hn
  | succ k => cases v <;> exact ⟨_, rfl⟩

/-- epochTotals succeeds on every non-empty batch list, whatever the loss
values are, NaN and infinities included. -/
theorem epochTotals_exists (l : List (FVal × ℚ)) (hl : l ≠ []) :
    ∃ v, epochTotals l = some v := by
  have hn : l.length ≠ 0 := fun h0 => hl (List.length_eq_zero.mp h0)
  obtain ⟨w, hw⟩ := divNat_isSome (l.foldl (fun t p => t.add p.1) (FVal.num 0)) l.length hn
  exact ⟨(w, (l.map Prod.snd).sum / l.length), by rw [epochTotals, hw]⟩

/-- C6 counterexample.  A one-epoch run whose single training batch has a
NaN loss: the run completes (some), the NaN flows into the reported epoch
metrics, and all three output files are written, refuting the claim that a
NaN loss aborts the run with no artifact, metadata, or active-model file
written. -/
theorem nan_loss_run_completes :
    runTrainingAndExport [⟨[(FVal.nan, 0)], [(FVal.num 0, 1)]⟩] =
      some ([((FVal.nan, 0), (FVal.num 0, 1))], OUTPUT_FILES) := by
  have ht : epochTotals [(FVal.nan, 0)] = some (FVal.nan, 0) := by
    norm_num [epochTotals, FVal.add, FVal.divNat]
  have hv : epochTotals [(FVal.num 0, 1)] = some (FVal.num 0, 1) := by
    norm_num [epochTotals, FVal.add, FVal.divNat]
  have h1 : epochPass ⟨[(FVal.nan, 0)], [(FVal.num 0, 1)]⟩ =
      some ((FVal.nan, 0), (FVal.num 0, 1)) := by
    unfold epochPass
    dsimp only
    rw [ht, hv]
  rw [runTrainingAndExport, List.mapM_cons, h1, List.mapM_nil]
  rfl

/-- C6 amended.  No NaN/Inf check exists: whenever every epoch has at least
one training and one validation batch (so no empty-loader division error
occurs), the run completes and writes the artifact, metadata, and
active-model files, regardless of the loss values, NaN and infinities
included. -/
theorem run_writes_files_regardless_of_loss :
    ∀ eds : List EpochBatchResults,
      (∀ ed ∈ eds, ed.trainBatches ≠ [] ∧ ed.valBatches ≠ []) →
      ∃ ms, runTrainingAndExport eds = some (ms, OUTPUT_FILES) := by
  intro eds h
  induction eds with
  | nil => exact ⟨[], rfl⟩
  | cons ed rest ih =>
    obtain ⟨ht, hv⟩ := h ed (List.mem_cons_self ed rest)
    obtain ⟨t, htt⟩ := epochTotals_exists ed.trainBatches ht
    obtain ⟨v, hvv⟩ := epochTotals_exists ed.valBatches hv
    obtain ⟨ms, hms⟩ := ih fun e he => h e (List.mem_cons_of_mem ed he)
    have hpass : epochPass ed = some (t, v) := by
      unfold epochPass
      rw [htt, hvv]
    have hrest : rest.mapM epochPass = some ms := by
      rw [runTrainingAndExport, Option.map_eq_some'] at hms
      obtain ⟨l, hl, hfl⟩ := hms
      simp only [Prod.mk.injEq] at hfl
      rw [← hfl.1]
      exact hl
    refine ⟨(t, v) :: ms, ?_⟩
    rw [runTrainingAndExport, List.mapM_cons, hpass, hrest]
    rfl

/-- C6 witness: a concrete run with an infinite training loss completes
with all three files written. -/
theorem run_writes_files_witness :
    ∃ ms, runTrainingAndExport [⟨[(FVal.inf, 1)], [(FVal.num 2, 1)]⟩] =
      some (ms, OUTPUT_FILES) :=
  run_writes_files_regardless_of_loss [⟨[(FVal.inf, 1)], [(FVal.num 2, 1)]⟩]
    (by simp)

/-- C7 counterexample.  On the batch a_scores = [0, 0], b_scores = [1, 1],
labels = [1, 0], compute_accuracy returns 1/2, while the sign rule with
label-0 samples excluded from the denominator returns 0 and the sign rule
with label-0 samples counted incorrect also returns 0: the code implements
neither of the two documented tie rules. -/
theorem accuracy_not_sign_rule :
    compute_accuracy [0, 0] [1, 1] [1, 0] ≠
        specAccuracyExcludeZero [0, 0] [1, 1] [1, 0] ∧
      compute_accuracy [0, 0] [1, 1] [1, 0] ≠
        specAccuracyZeroIncorrect [0, 0] [1, 1] [1, 0] := by
  norm_num [compute_accuracy, specAccuracyExcludeZero, specAccuracyZeroIncorrect,
    List.filter, qsign]

/-- C7 amended.  Pairwise accuracy equals the fraction, over all samples of
the batch, of samples where (score_a > score_b) holds exactly when
(label > 0) holds: a sample with label 0 (and likewise label -1) counts as
correct precisely when score_a is not greater than score_b, and label-0
samples stay in the denominator. -/
theorem compute_accuracy_eq_pred_eq_label_pos :
    ∀ (a_scores b_scores labels : List ℚ),
      compute_accuracy a_scores b_scores labels =
        ((((a_scores.zip b_scores).zip labels).countP
            fun p => decide ((p.1.1 > p.1.2) ↔ (p.2 > 0))) : ℚ) /
          ((a_scores.zip b_scores).zip labels).length := by
  intro a b y
  simp only [compute_accuracy]
  rw [List.countP_eq_length_filter]
  have hf : List.filter (fun p => decide (p.1.1 > p.1.2) == decide (p.2 > 0))
        ((a.zip b).zip y) =
      List.filter (fun p => decide ((p.1.1 > p.1.2) ↔ (p.2 > 0))) ((a.zip b).zip y) := by
    apply List.filter_congr
    intro p _
    by_cases hp : p.1.1 > p.1.2 <;> by_cases hq : p.2 > 0 <;> simp [hp, hq]
  rw [hf]

/-- C10.  When int(len(dataset) * val_split) = 0 the validation partition
is empty, so the validation loader has zero batches; evaluate then divides
by the batch count with no emptiness guard (a ZeroDivisionError, modelled
by none), and the per-epoch loop calls evaluate unconditionally, so every
run with at least one epoch fails there; only the final post-training
evaluation is guarded by a non-emptiness check and falls back to the
defaults (float inf, 0.0). -/
theorem empty_val_partition_epoch_eval_errors :
    ∀ (e d h n epochs bs : ℕ) (split : ℚ) (valData : List (EvalRow e d))
      (models : ℕ → PairwiseRankerMLP e d h) (m : PairwiseRankerMLP e d h),
      val_size n split = 0 → valData.length = val_size n split → 0 < epochs →
      makeBatches bs valData = [] ∧
        evaluate (models 0) (makeBatches bs valData) = none ∧
        perEpochValMetrics epochs models (makeBatches bs valData) = none ∧
        finalValEval m (makeBatches bs valData) = some (FVal.inf, 0) := by
  intro e d h n epochs bs split valData models m h0 hlen hep
  have hnil : valData = [] := List.length_eq_zero.mp (by rw [hlen, h0])
  subst hnil
  have hmb : makeBatches bs ([] : List (EvalRow e d)) = [] := by simp [makeBatches]
  refine ⟨hmb, ?_, ?_, ?_⟩
  · rw [hmb]; rfl
  · rw [hmb]
    obtain ⟨k, rfl⟩ : ∃ k, epochs = k + 1 := ⟨epochs - 1, by omega⟩
    rw [perEpochValMetrics, List.range_succ_eq_map]
    simp [List.mapM_cons, evaluate, List.mapM.loop]
  · rw [hmb]; rfl

/-- C10 witness: dataset size 4 at the default split 0.2 yields an empty
validation partition; the epoch evaluation errors while the guarded final
evaluation returns the defaults. -/
theorem empty_val_partition_witness :
    makeBatches DEFAULT_BATCH_SIZE ([] : List (EvalRow 1 1)) = [] ∧
      evaluate zeroMLP (makeBatches DEFAULT_BATCH_SIZE ([] : List (EvalRow 1 1))) = none ∧
      perEpochValMetrics 1 (fun _ => zeroMLP)
        (makeBatches DEFAULT_BATCH_SIZE ([] : List (EvalRow 1 1))) = none ∧
      finalValEval zeroMLP (makeBatches DEFAULT_BATCH_SIZE ([] : List (EvalRow 1 1))) =
        some (FVal.inf, 0) :=
  empty_val_partition_epoch_eval_errors 1 1 2 4 1 DEFAULT_BATCH_SIZE (1 / 5) []
    (fun _ => zeroMLP) zeroMLP (by norm_num [val_size]) (by norm_num [val_size])
    (by norm_num)

/-- C9.  Scoring identical A and B feature inputs in inference mode yields
a difference of exactly 0, because one shared encoder and score head score
both sides. -/
theorem identical_sides_zero_difference :
    ∀ (e d h : ℕ) (m : PairwiseRankerMLP e d h) (emb : Fin e → ℚ) (met : Fin d → ℚ),
      (m.forward emb met emb met).2.2 = 0 := by
  intro e d h m emb met
  simp [PairwiseRankerMLP.forward]
